import Mathlib

/-!
Shallow embedding of the HingeSDK client (hingesdk/client.py, api.py,
exceptions.py, tools.py).  Python dicts whose keys matter are modelled as
association lists; Python's `dict.get` built by repeated assignment is
modelled by taking the *last* matching binding.  Fallible operations return
`Except`.  Nondeterministic inputs of the real code (uuid, timestamps, HTTP
responses, file contents) are passed in as explicit parameters.
-/

/-- Python `dict` built by iterated assignment `d[k] = v` over a pair list:
the last assignment for a key wins (`d.get(k)`). -/
def dictGet (l : List (String × String)) (k : String) : Option String :=
  ((l.filter (fun kv => kv.1 == k)).getLast?).map (·.2)

/-- `base.copy(); base.update(upd)`: keys of `base` keep their position but
take `upd`'s value when present; keys only in `upd` are appended. -/
def dictUpdate (base upd : List (String × String)) : List (String × String) :=
  base.map (fun kv =>
    match List.lookup kv.1 upd with
    | some v => (kv.1, v)
    | none => kv)
  ++ upd.filter (fun kv => !(base.any (fun b => b.1 == kv.1)))

/-! ## Error taxonomy (hingesdk/exceptions.py) -/

/-- Context attached to a `HingeRequestError` by `HingeClient._request`. -/
structure RequestErrorDetails where
  status_code : Nat
  response_body : String
  endpoint : String
  request_headers : List (String × String)
  request_body : Option String
  deriving Repr, DecidableEq

/-- The exception family of exceptions.py: `HingeAuthError` and
`HingeRequestError` subclass the generic `HingeAPIError`; the `apiError`
constructor is the base class raised directly (network failure). -/
inductive HingeError where
  | authError (message : String) (details : RequestErrorDetails)
  | requestError (message : String) (details : RequestErrorDetails)
  | apiError (message : String) (exception_type : String) (url : String) (method : String)
  deriving Repr, DecidableEq

/-- The sanitized request-header context carried by an error, when any. -/
def HingeError.requestHeaders : HingeError → Option (List (String × String))
  | .authError _ d => some d.request_headers
  | .requestError _ d => some d.request_headers
  | .apiError _ _ _ _ => none

/-! ## Transport layer (hingesdk/client.py `HingeClient._request`) -/

structure HttpResponse where
  status : Nat
  body : String
  deriving Repr, DecidableEq

/-- What `self.session.request` produced: a final HTTP response, or a
`requests.exceptions.RequestException` with no response at all. -/
inductive HttpOutcome where
  | response (r : HttpResponse)
  | networkFailure (exception_type : String)
  deriving Repr, DecidableEq

/-- The client configuration relevant to `_request`: the fixed platform
header dict, plus the optional bearer token and session id appended to it
in `__init__`. -/
structure ClientConfig where
  platformHeaders : List (String × String)
  authToken : Option String
  sessionId : Option String
  deriving Repr, DecidableEq

/-- `self.default_headers` after `__init__`: the platform set, then
`Authorization: Bearer <token>` when a token is given, then `X-Session-Id`. -/
def defaultHeaders (cfg : ClientConfig) : List (String × String) :=
  cfg.platformHeaders
    ++ (match cfg.authToken with
        | some t => [("Authorization", "Bearer " ++ t)]
        | none => [])
    ++ (match cfg.sessionId with
        | some s => [("X-Session-Id", s)]
        | none => [])

/-- `headers = kwargs.get("headers", {}).copy(); headers.update(self.default_headers)`. -/
def mergedHeaders (cfg : ClientConfig) (callerHeaders : List (String × String)) :
    List (String × String) :=
  dictUpdate callerHeaders (defaultHeaders cfg)

/-- `{k: v for k, v in kwargs['headers'].items() if k.lower() not in ['authorization']}`. -/
def sanitizeHeaders (hs : List (String × String)) : List (String × String) :=
  hs.filter (fun kv => !(kv.1.toLower == "authorization"))

/-- `requests.Response.raise_for_status` raises `HTTPError` exactly for
4xx and 5xx status codes. -/
def raisesForStatus (status : Nat) : Bool :=
  400 ≤ status && status < 600

/-- `HingeRequestError.__init__`: `response_body or 'No response body'`. -/
def bodyOrDefault (body : String) : String :=
  if body == "" then "No response body" else body

/-- `HingeClient._request`: merge headers, perform the call, and on an
HTTP error build a `HingeRequestError` with the sanitized context, raising
`HingeAuthError` instead when the status is 401; on a network-level
failure raise the base `HingeAPIError` with exception type, url, method. -/
def hingeRequest (cfg : ClientConfig) (method url : String)
    (callerHeaders : List (String × String)) (jsonBody : Option String)
    (outcome : HttpOutcome) : Except HingeError HttpResponse :=
  let headers := mergedHeaders cfg callerHeaders
  match outcome with
  | .networkFailure excType =>
      .error (.apiError "Request failed" excType url method)
  | .response r =>
      if raisesForStatus r.status then
        let details : RequestErrorDetails :=
          { status_code := r.status
            response_body := bodyOrDefault r.body
            endpoint := url
            request_headers := sanitizeHeaders headers
            request_body := jsonBody }
        if r.status == 401 then
          .error (.authError "Authentication failed" details)
        else
          .error (.requestError "Request Error" details)
      else
        .ok r

/-! ## Resource API layer (hingesdk/api.py `HingeAPIClient.like_profile`) -/

/-- Python truthiness of an optional string argument (`if comment:`). -/
def pyTruthyStr : Option String → Bool
  | none => false
  | some s => !(s == "")

/-- Python truthiness of an optional dict argument (`if photo:`). -/
def pyTruthyDict : Option (List (String × String)) → Bool
  | none => false
  | some l => !l.isEmpty

/-- The optional `content` block of the like payload. -/
structure ContentBlock where
  comment : Option String
  photo : Option (List (String × String))
  prompt : Option (List (String × String))
  deriving Repr, DecidableEq

/-- The payload built by `like_profile`. -/
structure LikePayload where
  ratingId : String
  ratingToken : String
  subjectId : String
  sessionId : Option String
  rating : String
  origin : String
  hasPairing : Bool
  created : String
  initiatedWith : String
  content : Option ContentBlock
  deriving Repr, DecidableEq

/-- `HingeAPIClient.like_profile` payload construction.  `rating_id` (a
fresh uuid) and `created` (the current UTC timestamp) are passed in as
parameters; the content block is attached only when non-empty, and each
of its keys is set only when the corresponding argument is truthy. -/
def like_profile (rating_id created : String) (session_id : Option String)
    (subject_id rating_token : String)
    (comment : Option String) (photo prompt : Option (List (String × String)))
    (initiated_with : String) (origin : String) (has_pairing : Bool) :
    LikePayload :=
  let content : ContentBlock :=
    { comment := if pyTruthyStr comment then comment else none
      photo := if pyTruthyDict photo then photo else none
      prompt := if pyTruthyDict prompt then prompt else none }
  { ratingId := rating_id
    ratingToken := rating_token
    subjectId := subject_id
    sessionId := session_id
    rating := "note"
    origin := origin
    hasPairing := has_pairing
    created := created
    initiatedWith := initiated_with
    content :=
      if content.comment.isSome || content.photo.isSome || content.prompt.isSome
      then some content else none }

/-- Number of populated keys of the payload's content block (0 when the
block is absent). -/
def contentPopulatedCount (p : LikePayload) : Nat :=
  match p.content with
  | none => 0
  | some b =>
      (if b.comment.isSome then 1 else 0)
      + (if b.photo.isSome then 1 else 0)
      + (if b.prompt.isSome then 1 else 0)

/-! ## Scrape orchestrator data model (hingesdk/tools.py) -/

/-- One `subjects` entry of a recommendations feed. -/
structure Subject where
  subjectId : String
  ratingToken : String
  deriving Repr, DecidableEq

/-- One feed of the recommendations response. -/
structure Feed where
  subjects : List Subject
  deriving Repr, DecidableEq

/-- A raw prompt answer inside `profile["profile"]["answers"]`.  `type`,
`response`, `url` and `waveform` model `answer.get(...)` (absent = `none`);
`transcript` models `answer.get("transcription", {}).get("transcript")`
in one step. -/
structure RawAnswer where
  questionId : String
  type : Option String
  response : Option String
  transcript : Option String
  url : Option String
  waveform : Option String
  deriving Repr, DecidableEq

/-- A raw photo entry: `photo["url"]` is indexed directly (required);
`cdnId` and `contentId` use `.get`. -/
structure RawPhoto where
  url : String
  cdnId : Option String
  contentId : Option String
  deriving Repr, DecidableEq

/-- A profile object returned by `get_public_users`: its `identityId`, and
the `profile` sub-dict split into the `answers` list, the `photos` list and
the remaining key/value items (`info`). -/
structure RawProfile where
  identityId : String
  info : List (String × String)
  answers : List RawAnswer
  photos : List RawPhoto
  deriving Repr, DecidableEq

/-- A reshaped prompt entry of the persisted schema.  `voice_url` and
`waveform` are `none` when the key is absent (text answers) and
`some v` when present with (possibly null) value `v`. -/
structure PromptRecord where
  question : String
  question_id : String
  type : String
  response : String
  voice_url : Option (Option String)
  waveform : Option (Option String)
  deriving Repr, DecidableEq

/-- A reshaped image entry of the persisted schema. -/
structure ImageRecord where
  url : String
  cdn_id : Option String
  content_id : Option String
  deriving Repr, DecidableEq

/-- The `interaction_data` block of the persisted schema. -/
structure InteractionData where
  subject_id : String
  rating_token : Option String
  source : String
  deriving Repr, DecidableEq

/-- One persisted profile record. -/
structure Record where
  profile_info : List (String × String)
  prompts : List PromptRecord
  images : List ImageRecord
  interaction_data : InteractionData
  deriving Repr, DecidableEq

/-- The accumulated store: the persisted JSON object, keyed by identity.
Insertion order is kept, as in a Python dict. -/
abbrev Store := List (String × Record)

/-- The identity keys of the store, in order. -/
def storeKeys (s : Store) : List String :=
  List.map Prod.fst s

/-- `user_id in existing_data`. -/
def storeHasKey (s : Store) (k : String) : Bool :=
  List.any s (fun kv => kv.1 == k)

/-- `existing_data[user_id]` read: first binding of the key (bindings are
unique in any store the code builds). -/
def storeLookup (s : Store) (k : String) : Option Record :=
  List.lookup k s

/-- `question_map.get(answer["questionId"], "Unknown Question")` composed
with the dict comprehension over the mapping asset's prompt list. -/
def questionText (qmap : List (String × String)) (qid : String) : String :=
  (dictGet qmap qid).getD "Unknown Question"

/-- Reshaping of one raw answer into a `prompt_data` record (tools.py
lines 346-355): resolve the question text, default the type to `"text"`,
and split the voice and text cases. -/
def reshapeAnswer (qmap : List (String × String)) (a : RawAnswer) : PromptRecord :=
  let t := a.type.getD "text"
  if t == "voice" then
    { question := questionText qmap a.questionId
      question_id := a.questionId
      type := t
      response := a.transcript.getD ""
      voice_url := some a.url
      waveform := some a.waveform }
  else
    { question := questionText qmap a.questionId
      question_id := a.questionId
      type := t
      response := a.response.getD ""
      voice_url := none
      waveform := none }

/-- Reshaping of one raw photo into an image record. -/
def reshapePhoto (ph : RawPhoto) : ImageRecord :=
  { url := ph.url, cdn_id := ph.cdnId, content_id := ph.contentId }

/-- Reshaping of a whole profile into the persisted record (tools.py lines
343-362): profile info minus answers/photos, reshaped prompts and images,
and the interaction data with the rating token looked up by identity. -/
def reshapeProfile (qmap : List (String × String))
    (ratingToken : String → Option String) (p : RawProfile) : Record :=
  { profile_info := p.info
    prompts := p.answers.map (reshapeAnswer qmap)
    images := p.photos.map reshapePhoto
    interaction_data :=
      { subject_id := p.identityId
        rating_token := ratingToken p.identityId
        source := "recommendations" } }

/-- Accumulator of the per-profile loop: the store being grown plus the
`new_profiles` and `duplicate_profiles` counters. -/
structure ProcAcc where
  store : Store
  newCount : Nat
  dupCount : Nat
  deriving Repr, DecidableEq

/-- Body of `for profile in profiles:` (tools.py lines 336-362): an
identity already present is counted as a duplicate and skipped; otherwise
the reshaped record is inserted (appended, as a fresh dict key). -/
def processProfile (qmap : List (String × String))
    (ratingToken : String → Option String) (acc : ProcAcc) (p : RawProfile) :
    ProcAcc :=
  if storeHasKey acc.store p.identityId then
    { acc with dupCount := acc.dupCount + 1 }
  else
    { store := acc.store ++ [(p.identityId, reshapeProfile qmap ratingToken p)]
      newCount := acc.newCount + 1
      dupCount := acc.dupCount }

/-- What one iteration fetches from the remote service: the
recommendations feeds, and the profiles returned by `get_public_users`. -/
structure CycleData where
  feeds : List Feed
  profiles : List RawProfile
  deriving Repr, DecidableEq

/-- Flattening of `recommendations["feeds"][*]["subjects"]`. -/
def collectSubjects (feeds : List Feed) : List Subject :=
  feeds.foldr (fun f acc => f.subjects ++ acc) []

/-- `rating_tokens` dict built by iterating the subjects (last assignment
wins), read with `.get`. -/
def ratingTokenFor (subjects : List Subject) (uid : String) : Option String :=
  ((subjects.filter (fun s => s.subjectId == uid)).getLast?).map (·.ratingToken)

/-- Result of one scrape iteration: the store afterwards, the two logged
counters, and whether the iteration reached the disk write. -/
structure CycleResult where
  store : Store
  newCount : Nat
  dupCount : Nat
  wrote : Bool
  deriving Repr, DecidableEq

/-- One iteration of `scrape_recommendations_multiple` (tools.py lines
309-369): collect the subject ids and tokens; when no user ids were found,
log and `continue` (no profile fetch, no write); otherwise process every
returned profile and write the updated store to the file. -/
def runCycle (qmap : List (String × String)) (store : Store) (cd : CycleData) :
    CycleResult :=
  let subjects := collectSubjects cd.feeds
  let user_ids := subjects.map (·.subjectId)
  if user_ids.isEmpty then
    { store := store, newCount := 0, dupCount := 0, wrote := false }
  else
    let acc := cd.profiles.foldl (processProfile qmap (ratingTokenFor subjects))
      { store := store, newCount := 0, dupCount := 0 }
    { store := acc.store, newCount := acc.newCount, dupCount := acc.dupCount
      wrote := true }

/-- The whole iteration loop: the final store, and the sequence of store
snapshots written to disk (each write fully replaces the file). -/
def runMultiple (qmap : List (String × String)) (store : Store) :
    List CycleData → Store × List Store
  | [] => (store, [])
  | cd :: rest =>
      let r := runCycle qmap store cd
      ((runMultiple qmap r.store rest).1,
       (if r.wrote then [r.store] else []) ++ (runMultiple qmap r.store rest).2)

/-! ## Orchestrator setup (tools.py lines 290-306) -/

/-- The exceptions `scrape_recommendations_multiple` can raise during its
setup phase, kept as distinct Python types: the `HingeAPIError` family,
`FileNotFoundError`, and `json.JSONDecodeError`. -/
inductive ScrapeError where
  | hingeError (e : HingeError)
  | fileNotFound (message : String)
  | jsonDecodeError (message : String)
  deriving Repr, DecidableEq

/-- Whether a raised exception belongs to the `HingeAPIError` family (the
generic categorized API-error kind and its subclasses). -/
def ScrapeError.isHingeAPIError : ScrapeError → Bool
  | .hingeError _ => true
  | _ => false

/-- `os.path.exists(output_path)` / `json.load`: the store file may be
absent (`none`), present but malformed (`some none`), or present and
parsed (`some (some s)`). -/
def loadExistingData : Option (Option Store) → Except ScrapeError Store
  | none => .ok []
  | some none => .error (.jsonDecodeError "Expecting value")
  | some (some s) => .ok s

/-- The question-mapping asset: absent (`none`) or its parsed prompt list
(`some qmap`, already reduced to id/prompt pairs). -/
def loadQuestionMap : Option (List (String × String)) →
    Except ScrapeError (List (String × String))
  | none => .error (.fileNotFound "Question mapping file not found")
  | some qmap => .ok qmap

/-- The setup phase of `scrape_recommendations_multiple`: load the
existing store (lines 292-297), then the question mapping (lines 300-306),
in that order. -/
def scrapeSetup (storeFile : Option (Option Store))
    (mappingFile : Option (List (String × String))) :
    Except ScrapeError (Store × List (String × String)) := do
  let existing ← loadExistingData storeFile
  let qmap ← loadQuestionMap mappingFile
  .ok (existing, qmap)

/-- The whole orchestrator run: setup, then the iteration loop over the
fetched cycle data. -/
def scrapeRun (storeFile : Option (Option Store))
    (mappingFile : Option (List (String × String)))
    (cycles : List CycleData) : Except ScrapeError (Store × List Store) := do
  let (existing, qmap) ← scrapeSetup storeFile mappingFile
  .ok (runMultiple qmap existing cycles)

/-- The comment key of the payload's content block, when the block and
the key are present. -/
def contentComment (p : LikePayload) : Option String :=
  match p.content with
  | none => none
  | some b => b.comment

/-- The photo key of the payload's content block, when present. -/
def contentPhoto (p : LikePayload) : Option (List (String × String)) :=
  match p.content with
  | none => none
  | some b => b.photo

/-- The prompt key of the payload's content block, when present. -/
def contentPrompt (p : LikePayload) : Option (List (String × String)) :=
  match p.content with
  | none => none
  | some b => b.prompt

/-! ## Basic store lemmas -/

theorem storeHasKey_iff (s : Store) (k : String) :
    storeHasKey s k = true ↔ k ∈ storeKeys s := by
  simp [storeHasKey, storeKeys, List.any_eq_true]

theorem storeHasKey_append (s t : Store) (k : String) :
    storeHasKey (s ++ t) k = (storeHasKey s k || storeHasKey t k) := by
  simp [storeHasKey, List.any_append]

theorem storeHasKey_single (k k' : String) (r : Record) :
    storeHasKey [(k, r)] k' = (k == k') := by
  simp [storeHasKey]

theorem storeKeys_append (s t : Store) :
    storeKeys (s ++ t) = storeKeys s ++ storeKeys t := by
  simp [storeKeys]

theorem lookup_append_left {α β : Type} [BEq α] (k : α) (l₁ l₂ : List (α × β)) (v : β)
    (h : List.lookup k l₁ = some v) : List.lookup k (l₁ ++ l₂) = some v := by
  induction l₁ with
  | nil => simp [List.lookup] at h
  | cons a t ih =>
      simp only [List.lookup, List.cons_append] at h ⊢
      cases hk : k == a.1 <;> simp [hk] at h ⊢ <;> simp_all

/-! ## Properties of the per-profile loop -/

theorem processProfile_of_dup (qmap : List (String × String))
    (rt : String → Option String) (acc : ProcAcc) (p : RawProfile)
    (h : storeHasKey acc.store p.identityId = true) :
    processProfile qmap rt acc p = { acc with dupCount := acc.dupCount + 1 } := by
  simp [processProfile, h]

theorem processProfile_of_new (qmap : List (String × String))
    (rt : String → Option String) (acc : ProcAcc) (p : RawProfile)
    (h : storeHasKey acc.store p.identityId = false) :
    processProfile qmap rt acc p =
      { store := acc.store ++ [(p.identityId, reshapeProfile qmap rt p)]
        newCount := acc.newCount + 1
        dupCount := acc.dupCount } := by
  simp [processProfile, h]

/-- The per-profile loop over a cycle whose profile identities are
pairwise distinct: every profile whose identity is already a key is
counted as a duplicate, every other is appended, and the two counters add
up accordingly. -/
theorem foldl_process_spec (qmap : List (String × String))
    (rt : String → Option String) (ps : List RawProfile) (acc : ProcAcc)
    (h : (ps.map RawProfile.identityId).Nodup) :
    (ps.foldl (processProfile qmap rt) acc).store
        = acc.store ++ (ps.filter (fun p => !storeHasKey acc.store p.identityId)).map
            (fun p => (p.identityId, reshapeProfile qmap rt p))
    ∧ (ps.foldl (processProfile qmap rt) acc).newCount
        = acc.newCount + (ps.filter (fun p => !storeHasKey acc.store p.identityId)).length
    ∧ (ps.foldl (processProfile qmap rt) acc).dupCount
        = acc.dupCount + (ps.filter (fun p => storeHasKey acc.store p.identityId)).length := by
  induction ps generalizing acc with
  | nil => simp
  | cons p rest ih =>
      simp only [List.map_cons, List.nodup_cons, List.mem_map] at h
      obtain ⟨hp, hrest⟩ := h
      by_cases hmem : storeHasKey acc.store p.identityId = true
      · rw [List.foldl_cons, processProfile_of_dup qmap rt acc p hmem]
        obtain ⟨h1, h2, h3⟩ := ih { acc with dupCount := acc.dupCount + 1 } hrest
        refine ⟨?_, ?_, ?_⟩
        · simpa [List.filter_cons, hmem] using h1
        · simpa [List.filter_cons, hmem] using h2
        · rw [h3]; simp [List.filter_cons, hmem]; omega
      · rw [Bool.not_eq_true] at hmem
        rw [List.foldl_cons, processProfile_of_new qmap rt acc p hmem]
        set acc' : ProcAcc :=
          { store := acc.store ++ [(p.identityId, reshapeProfile qmap rt p)]
            newCount := acc.newCount + 1
            dupCount := acc.dupCount } with hacc'
        obtain ⟨h1, h2, h3⟩ := ih acc' hrest
        have hsame : ∀ q ∈ rest, storeHasKey acc'.store q.identityId
            = storeHasKey acc.store q.identityId := by
          intro q hq
          have hne : (p.identityId == q.identityId) = false := by
            rw [beq_eq_false_iff_ne]
            intro hcontr
            exact hp ⟨q, hq, hcontr.symm⟩
          rw [hacc', storeHasKey_append, storeHasKey_single, hne]
          simp
        have hfilt₁ : rest.filter (fun q => !storeHasKey acc'.store q.identityId)
            = rest.filter (fun q => !storeHasKey acc.store q.identityId) :=
          List.filter_congr (fun q hq => by rw [hsame q hq])
        have hfilt₂ : rest.filter (fun q => storeHasKey acc'.store q.identityId)
            = rest.filter (fun q => storeHasKey acc.store q.identityId) :=
          List.filter_congr (fun q hq => by rw [hsame q hq])
        refine ⟨?_, ?_, ?_⟩
        · rw [h1, hfilt₁, hacc']
          simp [List.filter_cons, hmem, List.append_assoc]
        · rw [h2, hfilt₁, hacc']
          simp [List.filter_cons, hmem]
          omega
        · rw [h3, hfilt₂, hacc']
          simp [List.filter_cons, hmem]

/-- The per-profile loop never creates a duplicate key, with no assumption
on the fetched profiles (a repeated identity within the same response hits
the duplicate branch the second time). -/
theorem foldl_process_nodupKeys (qmap : List (String × String))
    (rt : String → Option String) (ps : List RawProfile) (acc : ProcAcc)
    (h : (storeKeys acc.store).Nodup) :
    (storeKeys (ps.foldl (processProfile qmap rt) acc).store).Nodup := by
  induction ps generalizing acc with
  | nil => simpa
  | cons p rest ih =>
      by_cases hmem : storeHasKey acc.store p.identityId = true
      · rw [List.foldl_cons, processProfile_of_dup qmap rt acc p hmem]
        exact ih _ h
      · rw [Bool.not_eq_true] at hmem
        rw [List.foldl_cons, processProfile_of_new qmap rt acc p hmem]
        apply ih
        have hnot : p.identityId ∉ storeKeys acc.store := by
          intro hcontr
          rw [(storeHasKey_iff acc.store p.identityId).2 hcontr] at hmem
          exact Bool.true_eq_false.mp hmem
        simp only [storeKeys_append]
        have hsk : storeKeys [(p.identityId, reshapeProfile qmap rt p)]
            = [p.identityId] := rfl
        rw [hsk, List.nodup_append]
        refine ⟨h, List.nodup_singleton _, ?_⟩
        intro x hx hx'
        simp only [List.mem_singleton] at hx'
        exact hnot (hx' ▸ hx)

/-- The per-profile loop never changes the record bound to a key that is
already present. -/
theorem foldl_process_lookup (qmap : List (String × String))
    (rt : String → Option String) (ps : List RawProfile) (acc : ProcAcc)
    (k : String) (v : Record) (h : storeLookup acc.store k = some v) :
    storeLookup (ps.foldl (processProfile qmap rt) acc).store k = some v := by
  induction ps generalizing acc with
  | nil => simpa
  | cons p rest ih =>
      by_cases hmem : storeHasKey acc.store p.identityId = true
      · rw [List.foldl_cons, processProfile_of_dup qmap rt acc p hmem]
        exact ih _ h
      · rw [Bool.not_eq_true] at hmem
        rw [List.foldl_cons, processProfile_of_new qmap rt acc p hmem]
        exact ih _ (lookup_append_left k acc.store _ v h)

/-! ## Properties of one scrape iteration -/

theorem runCycle_of_empty (qmap : List (String × String)) (store : Store)
    (cd : CycleData) (h : collectSubjects cd.feeds = []) :
    runCycle qmap store cd =
      { store := store, newCount := 0, dupCount := 0, wrote := false } := by
  simp [runCycle, h]

theorem runCycle_of_nonempty (qmap : List (String × String)) (store : Store)
    (cd : CycleData) (h : collectSubjects cd.feeds ≠ []) :
    runCycle qmap store cd =
      (let acc := cd.profiles.foldl
          (processProfile qmap (ratingTokenFor (collectSubjects cd.feeds)))
          { store := store, newCount := 0, dupCount := 0 }
       { store := acc.store, newCount := acc.newCount, dupCount := acc.dupCount
         wrote := true }) := by
  have hne : ((collectSubjects cd.feeds).map (·.subjectId)).isEmpty = false := by
    rw [List.isEmpty_eq_false_iff_exists_mem]
    obtain ⟨s, hs⟩ := List.exists_mem_of_ne_nil _ h
    exact ⟨s.subjectId, List.mem_map_of_mem _ hs⟩
  simp [runCycle, hne]

/-- One iteration preserves uniqueness of the store keys. -/
theorem runCycle_nodupKeys (qmap : List (String × String)) (store : Store)
    (cd : CycleData) (h : (storeKeys store).Nodup) :
    (storeKeys (runCycle qmap store cd).store).Nodup := by
  by_cases hc : collectSubjects cd.feeds = []
  · rw [runCycle_of_empty qmap store cd hc]; exact h
  · rw [runCycle_of_nonempty qmap store cd hc]
    exact foldl_process_nodupKeys _ _ _ _ h

/-- One iteration never changes the record bound to an existing key. -/
theorem runCycle_lookup (qmap : List (String × String)) (store : Store)
    (cd : CycleData) (k : String) (v : Record)
    (h : storeLookup store k = some v) :
    storeLookup (runCycle qmap store cd).store k = some v := by
  by_cases hc : collectSubjects cd.feeds = []
  · rw [runCycle_of_empty qmap store cd hc]; exact h
  · rw [runCycle_of_nonempty qmap store cd hc]
    exact foldl_process_lookup _ _ _ _ _ _ h

/-! ## Properties of the iteration loop -/

theorem runMultiple_append (qmap : List (String × String)) (a b : List CycleData)
    (store : Store) :
    runMultiple qmap store (a ++ b)
      = ((runMultiple qmap (runMultiple qmap store a).1 b).1,
         (runMultiple qmap store a).2
           ++ (runMultiple qmap (runMultiple qmap store a).1 b).2) := by
  induction a generalizing store with
  | nil => simp [runMultiple]
  | cons cd rest ih =>
      simp only [List.cons_append, runMultiple, List.append_eq]
      rw [ih]
      simp [List.append_assoc]

/-- Both the final store and every snapshot flushed to disk have unique
keys, as soon as the loaded store does. -/
theorem runMultiple_nodupKeys (qmap : List (String × String))
    (cycles : List CycleData) (store : Store) (h : (storeKeys store).Nodup) :
    (storeKeys (runMultiple qmap store cycles).1).Nodup
    ∧ ∀ w ∈ (runMultiple qmap store cycles).2, (storeKeys w).Nodup := by
  induction cycles generalizing store with
  | nil => simpa [runMultiple]
  | cons cd rest ih =>
      have hstep := runCycle_nodupKeys qmap store cd h
      obtain ⟨h1, h2⟩ := ih (runCycle qmap store cd).store hstep
      refine ⟨h1, ?_⟩
      intro w hw
      simp only [runMultiple, List.mem_append] at hw
      rcases hw with hw | hw
      · rcases hwr : (runCycle qmap store cd).wrote with _ | _
        · rw [hwr] at hw; simp at hw
        · rw [hwr] at hw
          simp only [if_true, List.mem_singleton] at hw
          rw [hw]; exact hstep
      · exact h2 w hw

/-! ## Claims -/

/-- C10: for every call to `like_profile`, whatever optional arguments are
supplied, the constructed payload's `rating` field is the constant
string `"note"`. -/
theorem like_rating_always_note (rating_id created : String)
    (session_id : Option String) (subject_id rating_token : String)
    (comment : Option String) (photo prompt : Option (List (String × String)))
    (initiated_with origin : String) (has_pairing : Bool) :
    (like_profile rating_id created session_id subject_id rating_token comment
      photo prompt initiated_with origin has_pairing).rating = "note" := rfl

/-- C9: an answer whose question id is absent from the loaded question
mapping still yields a prompt record in the reshaped profile, with the
literal fallback `"Unknown Question"` as its question and the original
question id kept alongside. -/
theorem unknown_question_fallback (qmap : List (String × String))
    (rt : String → Option String) (p : RawProfile) (a : RawAnswer)
    (ha : a ∈ p.answers) (h : dictGet qmap a.questionId = none) :
    reshapeAnswer qmap a ∈ (reshapeProfile qmap rt p).prompts
    ∧ (reshapeAnswer qmap a).question = "Unknown Question"
    ∧ (reshapeAnswer qmap a).question_id = a.questionId := by
  refine ⟨List.mem_map_of_mem _ ha, ?_, ?_⟩ <;>
    · simp only [reshapeAnswer]
      split <;> simp [questionText, h]

theorem unknown_question_fallback_witness :
    reshapeAnswer [] ⟨"q1", none, some "resp", none, none, none⟩
        ∈ (reshapeProfile [] (fun _ => none)
            ⟨"u1", [], [⟨"q1", none, some "resp", none, none, none⟩], []⟩).prompts
    ∧ (reshapeAnswer [] ⟨"q1", none, some "resp", none, none, none⟩).question
        = "Unknown Question"
    ∧ (reshapeAnswer [] ⟨"q1", none, some "resp", none, none, none⟩).question_id
        = "q1" :=
  unknown_question_fallback [] (fun _ => none)
    ⟨"u1", [], [⟨"q1", none, some "resp", none, none, none⟩], []⟩
    ⟨"q1", none, some "resp", none, none, none⟩ (by simp) rfl

/-- C2: within one scrape cycle, a record bound to an identity already in
the store at the start of the cycle is never overwritten or deleted, and
the per-profile step counts a profile whose identity already exists as a
duplicate and skips it (store unchanged, duplicate counter bumped). -/
theorem cycle_preserves_existing_records (qmap : List (String × String))
    (rt : String → Option String) (store : Store) (cd : CycleData)
    (k : String) (v : Record) (acc : ProcAcc) (p : RawProfile) :
    (storeLookup store k = some v →
        storeLookup (runCycle qmap store cd).store k = some v)
    ∧ (storeHasKey acc.store p.identityId = true →
        processProfile qmap rt acc p = { acc with dupCount := acc.dupCount + 1 }) :=
  ⟨runCycle_lookup qmap store cd k v, processProfile_of_dup qmap rt acc p⟩

theorem cycle_preserves_existing_records_witness :
    storeLookup (runCycle [] [("u1", ⟨[], [], [], ⟨"u1", none, "recommendations"⟩⟩)]
        ⟨[⟨[⟨"u1", "t1"⟩]⟩], [⟨"u1", [], [], []⟩]⟩).store "u1"
      = some ⟨[], [], [], ⟨"u1", none, "recommendations"⟩⟩ :=
  (cycle_preserves_existing_records [] (fun _ => none)
      [("u1", ⟨[], [], [], ⟨"u1", none, "recommendations"⟩⟩)]
      ⟨[⟨[⟨"u1", "t1"⟩]⟩], [⟨"u1", [], [], []⟩]⟩ "u1"
      ⟨[], [], [], ⟨"u1", none, "recommendations"⟩⟩
      ⟨[], 0, 0⟩ ⟨"u1", [], [], []⟩).1 rfl

/-- C1: starting from a store with pairwise-distinct identity keys (as any
JSON object read back from disk has), running any number of scrape cycles
never produces duplicate identity keys, neither in the in-memory store
after any prefix of the cycles nor in any snapshot written to disk. -/
theorem scrape_no_duplicate_keys (qmap : List (String × String)) (store : Store)
    (cycles : List CycleData) (h : (storeKeys store).Nodup) :
    (∀ pre suf, cycles = pre ++ suf →
        (storeKeys (runMultiple qmap store pre).1).Nodup)
    ∧ ∀ w ∈ (runMultiple qmap store cycles).2, (storeKeys w).Nodup := by
  refine ⟨?_, (runMultiple_nodupKeys qmap cycles store h).2⟩
  intro pre _ _
  exact (runMultiple_nodupKeys qmap pre store h).1

theorem scrape_no_duplicate_keys_witness :
    (∀ pre suf,
        ([⟨[⟨[⟨"u1", "t1"⟩]⟩], [⟨"u1", [], [], []⟩]⟩] : List CycleData)
          = pre ++ suf →
        (storeKeys (runMultiple [] [] pre).1).Nodup)
    ∧ ∀ w ∈ (runMultiple [] []
          [⟨[⟨[⟨"u1", "t1"⟩]⟩], [⟨"u1", [], [], []⟩]⟩]).2,
        (storeKeys w).Nodup :=
  scrape_no_duplicate_keys [] [] _ List.nodup_nil

/-- C4 counterexample: a like call supplying a truthy comment, photo and
prompt at once produces a content block with all three keys populated, so
the block does not always carry at most one populated field. -/
theorem like_content_all_three_populated :
    contentPopulatedCount (like_profile "rid" "created" none "subj" "tok"
        (some "hi") (some [("k", "v")]) (some [("q", "w")])
        "standard" "compatibles" false) = 3
    ∧ ¬ contentPopulatedCount (like_profile "rid" "created" none "subj" "tok"
        (some "hi") (some [("k", "v")]) (some [("q", "w")])
        "standard" "compatibles" false) ≤ 1 := by
  refine ⟨rfl, by decide⟩

/-- The content block of the like payload, written with the truthiness
tests of the three optional arguments factored out. -/
theorem like_content_eq (rid created : String) (sid : Option String)
    (subj tok : String) (comment : Option String)
    (photo prompt : Option (List (String × String))) (iw org : String)
    (hp : Bool) :
    (like_profile rid created sid subj tok comment photo prompt iw org hp).content
      = if pyTruthyStr comment || pyTruthyDict photo || pyTruthyDict prompt then
          some ⟨if pyTruthyStr comment then comment else none,
                if pyTruthyDict photo then photo else none,
                if pyTruthyDict prompt then prompt else none⟩
        else none := by
  have hc : ∀ (c : Option String),
      (if pyTruthyStr c then c else none).isSome = pyTruthyStr c := by
    intro c
    cases c with
    | none => simp [pyTruthyStr]
    | some s => cases h : (s == "") <;> simp [pyTruthyStr, h]
  have hd : ∀ (d : Option (List (String × String))),
      (if pyTruthyDict d then d else none).isSome = pyTruthyDict d := by
    intro d
    cases d with
    | none => simp [pyTruthyDict]
    | some l => cases h : l.isEmpty <;> simp [pyTruthyDict, h]
  simp only [like_profile]
  rw [hc, hd, hd]

/-- C4 amended: each key of the content block is populated exactly when
the corresponding optional argument is truthy (so all three can be
populated at once); the block is omitted when none is; in particular a
call with only a plain comment yields a content block whose only
populated key is the comment. -/
theorem like_content_fields_match_args (rid created : String)
    (sid : Option String) (subj tok : String) (comment : Option String)
    (photo prompt : Option (List (String × String))) (iw org : String)
    (hp : Bool) :
    contentComment (like_profile rid created sid subj tok comment photo prompt iw org hp)
        = (if pyTruthyStr comment then comment else none)
    ∧ contentPhoto (like_profile rid created sid subj tok comment photo prompt iw org hp)
        = (if pyTruthyDict photo then photo else none)
    ∧ contentPrompt (like_profile rid created sid subj tok comment photo prompt iw org hp)
        = (if pyTruthyDict prompt then prompt else none)
    ∧ ((like_profile rid created sid subj tok comment photo prompt iw org hp).content = none
        ↔ (pyTruthyStr comment = false ∧ pyTruthyDict photo = false
            ∧ pyTruthyDict prompt = false))
    ∧ (pyTruthyStr comment = true → photo = none → prompt = none →
        (like_profile rid created sid subj tok comment photo prompt iw org hp).content
          = some ⟨comment, none, none⟩) := by
  cases hA : pyTruthyStr comment <;> cases hB : pyTruthyDict photo <;>
    cases hC : pyTruthyDict prompt <;>
    simp [like_content_eq, contentComment, contentPhoto, contentPrompt, hA, hB, hC] <;>
    tauto

theorem like_content_fields_match_args_witness :
    (like_profile "r" "c" none "s" "t" (some "hello") none none
        "standard" "compatibles" false).content
      = some ⟨some "hello", none, none⟩ :=
  (like_content_fields_match_args "r" "c" none "s" "t" (some "hello")
      none none "standard" "compatibles" false).2.2.2.2 (by decide) rfl rfl

/-- C3 counterexample: `raise_for_status` only raises for 4xx/5xx, so the
non-2xx status 304 is returned to the caller instead of raising the
Request error kind. -/
theorem request_304_returned_ok :
    hingeRequest ⟨[("Host", "prod-api.hingeaws.net")], some "token", none⟩
        "POST" "https://prod-api.hingeaws.net/rec/v2" [] none
        (.response ⟨304, ""⟩)
      = .ok ⟨304, ""⟩
    ∧ ¬ (200 ≤ 304 ∧ 304 < 300) :=
  ⟨rfl, by decide⟩

/-- C3 amended: a 2xx response is returned to the caller; a 401 raises the
Authentication error kind; any other 4xx/5xx raises the Request error
kind carrying the status; a network-level failure with no response raises
the generic API error kind with the exception type, method and URL.
(Non-2xx statuses outside 400-599, such as 304, are returned without
error.) -/
theorem request_error_taxonomy (cfg : ClientConfig) (method url : String)
    (hs : List (String × String)) (body : Option String) (r : HttpResponse)
    (excType : String) :
    (200 ≤ r.status ∧ r.status < 300 →
        hingeRequest cfg method url hs body (.response r) = .ok r)
    ∧ (r.status = 401 →
        hingeRequest cfg method url hs body (.response r)
          = .error (.authError "Authentication failed"
              ⟨r.status, bodyOrDefault r.body, url,
               sanitizeHeaders (mergedHeaders cfg hs), body⟩))
    ∧ (400 ≤ r.status → r.status < 600 → r.status ≠ 401 →
        hingeRequest cfg method url hs body (.response r)
          = .error (.requestError "Request Error"
              ⟨r.status, bodyOrDefault r.body, url,
               sanitizeHeaders (mergedHeaders cfg hs), body⟩))
    ∧ hingeRequest cfg method url hs body (.networkFailure excType)
        = .error (.apiError "Request failed" excType url method) := by
  refine ⟨?_, ?_, ?_, rfl⟩
  · rintro ⟨h2, h3⟩
    have hr : raisesForStatus r.status = false := by
      simp only [raisesForStatus, Bool.and_eq_false_iff, decide_eq_false_iff_not]
      omega
    simp [hingeRequest, hr]
  · intro h401
    have hr : raisesForStatus r.status = true := by
      simp only [raisesForStatus, Bool.and_eq_true, decide_eq_true_eq]
      omega
    have hr401 : raisesForStatus 401 = true := by decide
    simp [hingeRequest, hr, h401, hr401]
  · intro h4 h6 hne
    have hr : raisesForStatus r.status = true := by
      simp only [raisesForStatus, Bool.and_eq_true, decide_eq_true_eq]
      omega
    have hb : (r.status == 401) = false := by
      simp only [beq_eq_false_iff_ne, ne_eq]
      exact hne
    simp [hingeRequest, hr, hb]

theorem request_error_taxonomy_witness :
    hingeRequest ⟨[("Host", "h")], some "tok", none⟩ "GET" "u" [] none
        (.response ⟨401, ""⟩)
      = .error (.authError "Authentication failed"
          ⟨401, bodyOrDefault "", "u",
           sanitizeHeaders (mergedHeaders ⟨[("Host", "h")], some "tok", none⟩ []),
           none⟩) :=
  (request_error_taxonomy ⟨[("Host", "h")], some "tok", none⟩ "GET" "u" []
      none ⟨401, ""⟩ "E").2.1 rfl

/-- C7: whenever a request fails on a 4xx/5xx response (the only responses
that raise), the request-header context attached to the raised error is
the merged header dict with every `Authorization` entry removed and every
other entry preserved. -/
theorem error_headers_sanitized (cfg : ClientConfig) (method url : String)
    (callerHeaders : List (String × String)) (body : Option String)
    (r : HttpResponse) (h4 : 400 ≤ r.status) (h6 : r.status < 600) :
    ∃ e hs, hingeRequest cfg method url callerHeaders body (.response r) = .error e
      ∧ HingeError.requestHeaders e = some hs
      ∧ (∀ kv ∈ hs, kv.1.toLower ≠ "authorization")
      ∧ (∀ kv ∈ mergedHeaders cfg callerHeaders,
          kv.1.toLower ≠ "authorization" → kv ∈ hs) := by
  have hr : raisesForStatus r.status = true := by
    simp only [raisesForStatus, Bool.and_eq_true, decide_eq_true_eq]
    omega
  have hmem1 : ∀ kv ∈ sanitizeHeaders (mergedHeaders cfg callerHeaders),
      kv.1.toLower ≠ "authorization" := by
    intro kv hkv
    simp only [sanitizeHeaders, List.mem_filter, Bool.not_eq_true',
      beq_eq_false_iff_ne, ne_eq] at hkv
    exact hkv.2
  have hmem2 : ∀ kv ∈ mergedHeaders cfg callerHeaders,
      kv.1.toLower ≠ "authorization" →
      kv ∈ sanitizeHeaders (mergedHeaders cfg callerHeaders) := by
    intro kv hkv hne
    simp only [sanitizeHeaders, List.mem_filter, Bool.not_eq_true',
      beq_eq_false_iff_ne, ne_eq]
    exact ⟨hkv, hne⟩
  by_cases h401 : r.status = 401
  · refine ⟨.authError "Authentication failed"
        ⟨r.status, bodyOrDefault r.body, url,
         sanitizeHeaders (mergedHeaders cfg callerHeaders), body⟩,
      sanitizeHeaders (mergedHeaders cfg callerHeaders),
      ?_, rfl, hmem1, hmem2⟩
    have hr401 : raisesForStatus 401 = true := by decide
    simp [hingeRequest, hr, h401, hr401]
  · have hb : (r.status == 401) = false := by
      simp only [beq_eq_false_iff_ne, ne_eq]
      exact h401
    refine ⟨.requestError "Request Error"
        ⟨r.status, bodyOrDefault r.body, url,
         sanitizeHeaders (mergedHeaders cfg callerHeaders), body⟩,
      sanitizeHeaders (mergedHeaders cfg callerHeaders),
      ?_, rfl, hmem1, hmem2⟩
    simp [hingeRequest, hr, hb]

theorem error_headers_sanitized_witness :
    ∃ e hs, hingeRequest ⟨[("Host", "h")], some "tok", none⟩ "GET" "u"
        [("X-App-Version", "1")] none (.response ⟨500, "oops"⟩) = .error e
      ∧ HingeError.requestHeaders e = some hs
      ∧ (∀ kv ∈ hs, kv.1.toLower ≠ "authorization")
      ∧ (∀ kv ∈ mergedHeaders ⟨[("Host", "h")], some "tok", none⟩
            [("X-App-Version", "1")],
          kv.1.toLower ≠ "authorization" → kv ∈ hs) :=
  error_headers_sanitized ⟨[("Host", "h")], some "tok", none⟩ "GET" "u"
    [("X-App-Version", "1")] none ⟨500, "oops"⟩ (by decide) (by decide)

/-- C8 counterexample: a missing question-mapping asset raises
`FileNotFoundError` and a malformed store file raises a JSON decode
error; neither belongs to the `HingeAPIError` family, so the orchestrator
does not fail with the generic API error kind in those cases. -/
theorem setup_errors_not_hinge_kind :
    scrapeRun (some (some [])) none []
        = .error (.fileNotFound "Question mapping file not found")
    ∧ scrapeRun (some none) (some []) []
        = .error (.jsonDecodeError "Expecting value")
    ∧ (ScrapeError.fileNotFound "Question mapping file not found").isHingeAPIError
        = false
    ∧ (ScrapeError.jsonDecodeError "Expecting value").isHingeAPIError = false :=
  ⟨rfl, rfl, rfl, rfl⟩

/-- C8 amended: when the question-mapping asset is absent, or the store
file exists but is malformed JSON, the whole run aborts immediately
during setup (no cycle runs, nothing is written), raising
`FileNotFoundError` respectively a JSON decode error — both outside the
`HingeAPIError` family rather than the generic API error kind. -/
theorem setup_failure_aborts_run (storeFile : Option (Option Store))
    (mapping : Option (List (String × String)))
    (cycles₁ cycles₂ : List CycleData) (h1 : storeFile ≠ some none) :
    (scrapeRun storeFile none cycles₁
        = .error (.fileNotFound "Question mapping file not found")
      ∧ (ScrapeError.fileNotFound "Question mapping file not found").isHingeAPIError
          = false)
    ∧ (scrapeRun (some none) mapping cycles₂
        = .error (.jsonDecodeError "Expecting value")
      ∧ (ScrapeError.jsonDecodeError "Expecting value").isHingeAPIError = false) := by
  refine ⟨⟨?_, rfl⟩, ⟨?_, rfl⟩⟩
  · rcases storeFile with _ | (_ | s)
    · rfl
    · exact absurd rfl h1
    · rfl
  · cases mapping <;> rfl

theorem setup_failure_aborts_run_witness :
    (scrapeRun none none []
        = .error (.fileNotFound "Question mapping file not found")
      ∧ (ScrapeError.fileNotFound "Question mapping file not found").isHingeAPIError
          = false)
    ∧ (scrapeRun (some none) (some []) []
        = .error (.jsonDecodeError "Expecting value")
      ∧ (ScrapeError.jsonDecodeError "Expecting value").isHingeAPIError = false) :=
  setup_failure_aborts_run none (some []) [] [] (by simp)

/-- C5 counterexample: a run of one cycle whose recommendations contain no
subjects completes without error yet performs no disk write at all — the
`continue` on an empty user-id list skips the persist step. -/
theorem empty_cycle_skips_write :
    (runMultiple [] [] [⟨[], []⟩]).2 = []
    ∧ ([(⟨[], []⟩ : CycleData)]).length = 1 :=
  ⟨rfl, rfl⟩

/-- C5 amended: after every cycle whose collected subjects list is
nonempty, the full accumulated store at the end of that cycle is among
the snapshots written to disk (each write replacing the prior file
content); a cycle with an empty subjects list skips the write but does
not end the run. -/
theorem nonempty_cycle_persists_store (qmap : List (String × String))
    (store : Store) (pre suf : List CycleData) (cd : CycleData)
    (h : collectSubjects cd.feeds ≠ []) :
    (runMultiple qmap store (pre ++ [cd])).1
      ∈ (runMultiple qmap store (pre ++ cd :: suf)).2 := by
  have hw : (runCycle qmap (runMultiple qmap store pre).1 cd).wrote = true := by
    rw [runCycle_of_nonempty _ _ _ h]
  have h1 : (runMultiple qmap store (pre ++ [cd])).1
      = (runCycle qmap (runMultiple qmap store pre).1 cd).store := by
    rw [runMultiple_append]
    simp [runMultiple]
  rw [h1, runMultiple_append qmap pre (cd :: suf) store]
  simp only [runMultiple, List.mem_append, hw, if_true, List.mem_cons]
  tauto

theorem nonempty_cycle_persists_store_witness :
    (runMultiple [] [] ([] ++ [⟨[⟨[⟨"u1", "t1"⟩]⟩], []⟩])).1
      ∈ (runMultiple [] [] ([] ++ (⟨[⟨[⟨"u1", "t1"⟩]⟩], []⟩ : CycleData) :: [])).2 :=
  nonempty_cycle_persists_store [] [] [] [] ⟨[⟨[⟨"u1", "t1"⟩]⟩], []⟩ (by decide)

theorem runCycle_store_of_nonempty (qmap : List (String × String))
    (store : Store) (cd : CycleData) (h : collectSubjects cd.feeds ≠ []) :
    (runCycle qmap store cd).store
      = (cd.profiles.foldl
          (processProfile qmap (ratingTokenFor (collectSubjects cd.feeds)))
          ⟨store, 0, 0⟩).store := by
  rw [runCycle_of_nonempty _ _ _ h]

theorem runCycle_dup_of_nonempty (qmap : List (String × String))
    (store : Store) (cd : CycleData) (h : collectSubjects cd.feeds ≠ []) :
    (runCycle qmap store cd).dupCount
      = (cd.profiles.foldl
          (processProfile qmap (ratingTokenFor (collectSubjects cd.feeds)))
          ⟨store, 0, 0⟩).dupCount := by
  rw [runCycle_of_nonempty _ _ _ h]

theorem keys_of_filter_map (rtf : String → Option String)
    (qmap : List (String × String)) (q : String → Bool) (l : List RawProfile) :
    storeKeys ((l.filter (fun p => q p.identityId)).map
        (fun p => (p.identityId, reshapeProfile qmap rtf p)))
      = (l.map RawProfile.identityId).filter q := by
  induction l with
  | nil => rfl
  | cons a t ih =>
      simp only [List.filter_cons, List.map_cons]
      simp only [storeKeys, List.map_map] at ih ⊢
      cases h : q a.identityId <;> simp [h, ih]

theorem length_filter_on_ids (q : String → Bool) (l : List RawProfile) :
    (l.filter (fun p => q p.identityId)).length
      = ((l.map RawProfile.identityId).filter q).length := by
  induction l with
  | nil => rfl
  | cons a t ih =>
      simp only [List.filter_cons, List.map_cons]
      cases h : q a.identityId <;> simp [h, ih]

/-- C6: starting from an empty store, two cycles whose (duplicate-free)
returned identity lists are `A` and `B` leave exactly `|A ∪ B|` records in
the final store, and the second cycle's duplicate counter is exactly the
overlap `k = |A ∩ B|`. -/
theorem two_cycle_union_and_duplicates (qmap : List (String × String))
    (cd1 cd2 : CycleData) (A B : List String) (k : Nat)
    (hA : cd1.profiles.map RawProfile.identityId = A)
    (hB : cd2.profiles.map RawProfile.identityId = B)
    (hAnd : A.Nodup) (hBnd : B.Nodup)
    (hne1 : collectSubjects cd1.feeds ≠ [])
    (hne2 : collectSubjects cd2.feeds ≠ [])
    (hk : k = (A.toFinset ∩ B.toFinset).card) :
    (runMultiple qmap [] [cd1, cd2]).1.length = (A.toFinset ∪ B.toFinset).card
    ∧ (runCycle qmap (runCycle qmap ([] : Store) cd1).store cd2).dupCount = k := by
  have hnd1 : (cd1.profiles.map RawProfile.identityId).Nodup := by
    rw [hA]; exact hAnd
  have hnd2 : (cd2.profiles.map RawProfile.identityId).Nodup := by
    rw [hB]; exact hBnd
  have hst1 : (runCycle qmap [] cd1).store
      = cd1.profiles.map (fun p =>
          (p.identityId,
           reshapeProfile qmap (ratingTokenFor (collectSubjects cd1.feeds)) p)) := by
    rw [runCycle_store_of_nonempty qmap [] cd1 hne1]
    obtain ⟨hS, _, _⟩ := foldl_process_spec qmap
      (ratingTokenFor (collectSubjects cd1.feeds)) cd1.profiles ⟨[], 0, 0⟩ hnd1
    rw [hS]
    simp [storeHasKey]
  have hkeys1 : storeKeys (runCycle qmap [] cd1).store = A := by
    rw [hst1, ← hA]
    simp [storeKeys, List.map_map]
  have hhk : ∀ x, storeHasKey (runCycle qmap [] cd1).store x = decide (x ∈ A) := by
    intro x
    cases hv : storeHasKey (runCycle qmap [] cd1).store x with
    | false =>
        have hx : x ∉ A := by
          intro hmem
          have ht := (storeHasKey_iff _ _).2 (by rw [hkeys1]; exact hmem)
          rw [hv] at ht
          cases ht
        simp [hx]
    | true =>
        have hx : x ∈ A := by
          have ht := (storeHasKey_iff _ _).1 hv
          rwa [hkeys1] at ht
        simp [hx]
  have hst2 : (runCycle qmap (runCycle qmap [] cd1).store cd2).store
      = (runCycle qmap [] cd1).store
        ++ (cd2.profiles.filter (fun p =>
              !storeHasKey (runCycle qmap [] cd1).store p.identityId)).map
            (fun p =>
              (p.identityId,
               reshapeProfile qmap (ratingTokenFor (collectSubjects cd2.feeds)) p)) := by
    rw [runCycle_store_of_nonempty qmap _ cd2 hne2]
    obtain ⟨hS, _, _⟩ := foldl_process_spec qmap
      (ratingTokenFor (collectSubjects cd2.feeds)) cd2.profiles
      ⟨(runCycle qmap [] cd1).store, 0, 0⟩ hnd2
    rw [hS]
  have hdup2 : (runCycle qmap (runCycle qmap [] cd1).store cd2).dupCount
      = (cd2.profiles.filter (fun p =>
          storeHasKey (runCycle qmap [] cd1).store p.identityId)).length := by
    rw [runCycle_dup_of_nonempty qmap _ cd2 hne2]
    obtain ⟨_, _, hD⟩ := foldl_process_spec qmap
      (ratingTokenFor (collectSubjects cd2.feeds)) cd2.profiles
      ⟨(runCycle qmap [] cd1).store, 0, 0⟩ hnd2
    rw [hD]
    simp
  have hpredIn : cd2.profiles.filter (fun p =>
        storeHasKey (runCycle qmap [] cd1).store p.identityId)
      = cd2.profiles.filter (fun p => decide (p.identityId ∈ A)) :=
    List.filter_congr (fun p _ => by rw [hhk p.identityId])
  have hpredOut : cd2.profiles.filter (fun p =>
        !storeHasKey (runCycle qmap [] cd1).store p.identityId)
      = cd2.profiles.filter (fun p => !decide (p.identityId ∈ A)) :=
    List.filter_congr (fun p _ => by rw [hhk p.identityId])
  have hkfin : (B.filter (fun x => decide (x ∈ A))).length
      = (A.toFinset ∩ B.toFinset).card := by
    have hnd : (B.filter (fun x => decide (x ∈ A))).Nodup := hBnd.filter _
    rw [← List.toFinset_card_of_nodup hnd]
    congr 1
    ext x
    simp only [List.mem_toFinset, List.mem_filter, Finset.mem_inter,
      decide_eq_true_eq]
    tauto
  have hLnd : (A ++ B.filter (fun x => !decide (x ∈ A))).Nodup := by
    rw [List.nodup_append]
    refine ⟨hAnd, hBnd.filter _, ?_⟩
    intro x hxA hxB
    simp only [List.mem_filter, Bool.not_eq_true', decide_eq_false_iff_not] at hxB
    exact hxB.2 hxA
  have hLfin : (A ++ B.filter (fun x => !decide (x ∈ A))).toFinset
      = A.toFinset ∪ B.toFinset := by
    ext x
    simp only [List.mem_toFinset, List.mem_append, List.mem_filter,
      Finset.mem_union, Bool.not_eq_true', decide_eq_false_iff_not]
    tauto
  have hkeys2 : storeKeys (runCycle qmap (runCycle qmap [] cd1).store cd2).store
      = A ++ B.filter (fun x => !decide (x ∈ A)) := by
    rw [hst2, storeKeys_append, hkeys1, hpredOut]
    congr 1
    calc storeKeys ((cd2.profiles.filter (fun p => !decide (p.identityId ∈ A))).map
            (fun p =>
              (p.identityId,
               reshapeProfile qmap (ratingTokenFor (collectSubjects cd2.feeds)) p)))
        = (cd2.profiles.map RawProfile.identityId).filter (fun x => !decide (x ∈ A)) :=
          keys_of_filter_map _ qmap (fun x => !decide (x ∈ A)) cd2.profiles
      _ = B.filter (fun x => !decide (x ∈ A)) := by rw [hB]
  constructor
  · have hrm : (runMultiple qmap [] [cd1, cd2]).1
        = (runCycle qmap (runCycle qmap ([] : Store) cd1).store cd2).store := by
      simp [runMultiple]
    calc (runMultiple qmap [] [cd1, cd2]).1.length
        = (storeKeys (runCycle qmap (runCycle qmap ([] : Store) cd1).store cd2).store).length := by
          rw [hrm]; simp [storeKeys]
      _ = (A ++ B.filter (fun x => !decide (x ∈ A))).length := by rw [hkeys2]
      _ = (A ++ B.filter (fun x => !decide (x ∈ A))).toFinset.card :=
          (List.toFinset_card_of_nodup hLnd).symm
      _ = (A.toFinset ∪ B.toFinset).card := by rw [hLfin]
  · calc (runCycle qmap (runCycle qmap ([] : Store) cd1).store cd2).dupCount
        = (cd2.profiles.filter (fun p =>
            storeHasKey (runCycle qmap [] cd1).store p.identityId)).length := hdup2
      _ = (cd2.profiles.filter (fun p => decide (p.identityId ∈ A))).length := by
          rw [hpredIn]
      _ = ((cd2.profiles.map RawProfile.identityId).filter (fun x => decide (x ∈ A))).length :=
          length_filter_on_ids (fun x => decide (x ∈ A)) cd2.profiles
      _ = (B.filter (fun x => decide (x ∈ A))).length := by rw [hB]
      _ = (A.toFinset ∩ B.toFinset).card := hkfin
      _ = k := hk.symm

theorem two_cycle_union_and_duplicates_witness :
    (runMultiple [] []
        [⟨[⟨[⟨"a", "t"⟩]⟩], [⟨"a", [], [], []⟩, ⟨"b", [], [], []⟩]⟩,
         ⟨[⟨[⟨"b", "t"⟩]⟩], [⟨"b", [], [], []⟩, ⟨"c", [], [], []⟩]⟩]).1.length
      = ((["a", "b"] : List String).toFinset
          ∪ (["b", "c"] : List String).toFinset).card
    ∧ (runCycle [] (runCycle [] ([] : Store)
          ⟨[⟨[⟨"a", "t"⟩]⟩], [⟨"a", [], [], []⟩, ⟨"b", [], [], []⟩]⟩).store
        ⟨[⟨[⟨"b", "t"⟩]⟩], [⟨"b", [], [], []⟩, ⟨"c", [], [], []⟩]⟩).dupCount = 1 :=
  two_cycle_union_and_duplicates []
    ⟨[⟨[⟨"a", "t"⟩]⟩], [⟨"a", [], [], []⟩, ⟨"b", [], [], []⟩]⟩
    ⟨[⟨[⟨"b", "t"⟩]⟩], [⟨"b", [], [], []⟩, ⟨"c", [], [], []⟩]⟩
    ["a", "b"] ["b", "c"] 1 rfl rfl (by decide) (by decide) (by decide)
    (by decide) (by decide)
